import Mathlib

/-!
Verification of the natural-language specification of `twpayne/go-gpx`
(file `gpx.go`) against a shallow Lean embedding of its code.

Embedding conventions:

* Go `time.Time` values are modelled by `GoTime`: the absolute instant as
  nanoseconds since the Unix epoch (`unixNanos : ℤ`), together with the
  location in wall-clock representation (`utc : Bool`; `false` is the
  process-local zone, which `time.Unix` produces, `true` is UTC, which
  `Time.UTC()` produces).  Go's zero `time.Time` (January 1, year 1 UTC)
  is `goZeroTime`; `Time.IsZero` compares against that instant.
* Go `float64` measure values are idealised as exact rationals `ℚ`; the
  conversions `int64(x)` on them are truncation toward zero (`ratTrunc`).
  Rounding of `float64` arithmetic itself is outside this model.
* Go's integer `/` and `%` on `int64` truncate toward zero, i.e. they are
  `Int.tdiv` and `Int.tmod`.
-/

/-- Model of Go `time.Time`: absolute instant in Unix nanoseconds plus
whether the wall-clock location is UTC (`true`) or process-local (`false`). -/
structure GoTime where
  unixNanos : ℤ
  utc : Bool
deriving DecidableEq, Repr

/-- Nanoseconds per second, Go's `time.Second` as a count of nanoseconds. -/
def nanosPerSecond : ℕ := 1000000000

/-- Model of Go `time.Unix(sec, nsec)`: the instant `sec` seconds plus
`nsec` nanoseconds after the Unix epoch, in the local zone.  (Go normalises
`nsec` into `[0, 1e9)`, which does not change the instant.) -/
def goUnix (sec nsec : ℤ) : GoTime :=
  ⟨sec * (nanosPerSecond : ℤ) + nsec, false⟩

/-- Model of Go `Time.UTC()`: same instant, location set to UTC. -/
def GoTime.toUTC (t : GoTime) : GoTime :=
  ⟨t.unixNanos, true⟩

/-- Unix nanoseconds of Go's zero `time.Time` (January 1, year 1, 00:00:00 UTC),
which is 62135596800 seconds before the Unix epoch. -/
def goZeroNanos : ℤ :=
  -62135596800 * (nanosPerSecond : ℤ)

/-- Go's zero `time.Time` value, the codebase's "absent time" sentinel. -/
def goZeroTime : GoTime :=
  ⟨goZeroNanos, true⟩

/-- Model of Go `Time.IsZero()`: whether the instant is the zero time. -/
def GoTime.IsZero (t : GoTime) : Bool :=
  t.unixNanos == goZeroNanos

/-- Truncation of a rational toward zero, the semantics of Go's `int64(x)`
conversion from a numeric value. -/
def ratTrunc (q : ℚ) : ℤ :=
  if 0 ≤ q then ⌊q⌋ else ⌈q⌉

/-- Embedding of `MToTime` (gpx.go): `if m == 0 { return time.Unix(0, 0) };
return time.Unix(int64(m), int64(m*float64(time.Second))%int64(time.Second)).UTC()`. -/
def MToTime (m : ℚ) : GoTime :=
  if m = 0 then goUnix 0 0
  else (goUnix (ratTrunc m)
    (Int.tmod (ratTrunc (m * (nanosPerSecond : ℚ))) (nanosPerSecond : ℤ))).toUTC

/-- Embedding of `TimeToM` (gpx.go): `if t.IsZero() { return 0 };
return float64(t.UnixNano()) / float64(time.Second)`. -/
def TimeToM (t : GoTime) : ℚ :=
  if t.IsZero then 0 else (t.unixNanos : ℚ) / ((nanosPerSecond : ℕ) : ℚ)

/-- Truncating division of an integer cast to `ℚ` by a positive natural
agrees with Go-style truncated integer division `Int.tdiv`. -/
theorem ratTrunc_intCast_div_natCast (n : ℤ) (d : ℕ) (hd : 0 < d) :
    ratTrunc ((n : ℚ) / (d : ℚ)) = n.tdiv d := by
  rcases le_or_lt 0 n with hn | hn
  · have hq : (0 : ℚ) ≤ (n : ℚ) / (d : ℚ) := by positivity
    rw [ratTrunc, if_pos hq, Rat.floor_intCast_div_natCast,
      Int.tdiv_eq_ediv hn (by exact_mod_cast hd.le)]
  · have hq : ¬ (0 : ℚ) ≤ (n : ℚ) / (d : ℚ) := by
      rw [not_le]
      apply div_neg_of_neg_of_pos
      · exact_mod_cast hn
      · exact_mod_cast hd
    have hcast : (n : ℚ) / (d : ℚ) = -(((-n : ℤ) : ℚ) / (d : ℚ)) := by
      push_cast
      ring
    rw [ratTrunc, if_neg hq, hcast, Int.ceil_neg, Rat.floor_intCast_div_natCast,
      ← Int.tdiv_eq_ediv (by omega) (by exact_mod_cast hd.le), Int.neg_tdiv, neg_neg]

/-- Truncation of an integer cast to `ℚ` is the integer itself. -/
theorem ratTrunc_intCast (n : ℤ) : ratTrunc (n : ℚ) = n := by
  rw [ratTrunc]
  split
  · exact Int.floor_intCast n
  · exact Int.ceil_intCast n

/-- Key round-trip fact: for a UTC, non-sentinel, non-epoch time,
`MToTime (TimeToM t) = t` exactly (with measures as exact rationals). -/
theorem mToTime_timeToM (t : GoTime) (hutc : t.utc = true)
    (hz : t.IsZero = false) (hn : t.unixNanos ≠ 0) :
    MToTime (TimeToM t) = t := by
  have hzq : ((nanosPerSecond : ℕ) : ℚ) ≠ 0 := by
    norm_num [nanosPerSecond]
  have hm : TimeToM t = (t.unixNanos : ℚ) / ((nanosPerSecond : ℕ) : ℚ) := by
    rw [TimeToM, hz]
    simp
  have hmne : TimeToM t ≠ 0 := by
    rw [hm]
    exact div_ne_zero (by exact_mod_cast hn) hzq
  rw [MToTime, if_neg hmne, hm]
  have hcancel : (t.unixNanos : ℚ) / ((nanosPerSecond : ℕ) : ℚ) * ((nanosPerSecond : ℕ) : ℚ)
      = (t.unixNanos : ℚ) := div_mul_cancel₀ _ hzq
  have h₁ : ratTrunc ((t.unixNanos : ℚ) / ((nanosPerSecond : ℕ) : ℚ) * ((nanosPerSecond : ℕ) : ℚ))
      = t.unixNanos := by
    rw [hcancel, ratTrunc_intCast]
  have h₂ : ratTrunc ((t.unixNanos : ℚ) / ((nanosPerSecond : ℕ) : ℚ))
      = t.unixNanos.tdiv (nanosPerSecond : ℕ) := by
    rw [ratTrunc_intCast_div_natCast]
    norm_num [nanosPerSecond]
  have hid : t.unixNanos.tdiv ((nanosPerSecond : ℕ) : ℤ) * ((nanosPerSecond : ℕ) : ℤ)
      + Int.tmod t.unixNanos ((nanosPerSecond : ℕ) : ℤ) = t.unixNanos := by
    have := Int.tdiv_add_tmod t.unixNanos ((nanosPerSecond : ℕ) : ℤ)
    linarith
  cases t with
  | mk nanos loc =>
    simp only at hutc
    subst hutc
    simp only [goUnix, GoTime.toUTC, GoTime.mk.injEq, and_true]
    simp only at h₁ h₂ hid
    rw [h₁, h₂]
    exact hid

/-- Model of `go-geom`'s `geom.Layout`: which of the X/Y/Z/M axes are present.
`custom n` stands for `geom.Layout(n)` with `n > 4` dimensions. -/
inductive Layout where
  | noLayout
  | xy
  | xyz
  | xym
  | xyzm
  | custom (dim : ℕ)
deriving DecidableEq, Repr

/-- Stride (number of coordinates per point) of a layout, per `go-geom`. -/
def Layout.stride : Layout → ℕ
  | .noLayout => 0
  | .xy => 2
  | .xyz => 3
  | .xym => 3
  | .xyzm => 4
  | .custom n => n

/-- Index of the Z axis in a layout, `-1` when absent, per `go-geom`. -/
def Layout.zIndex : Layout → ℤ
  | .noLayout => -1
  | .xy => -1
  | .xym => -1
  | _ => 2

/-- Index of the M axis in a layout, `-1` when absent, per `go-geom`. -/
def Layout.mIndex : Layout → ℤ
  | .noLayout => -1
  | .xy => -1
  | .xyz => -1
  | .xym => 2
  | _ => 3

/-- Model of a `go-geom` `geom.Point`: its layout and flat coordinate array. -/
structure Point where
  layout : Layout
  flatCoords : List ℚ
deriving DecidableEq, Repr

/-- Model of a GPX `linkType` record. -/
structure LinkType where
  HREF : String
  Text : String
  «Type» : String
deriving DecidableEq, Repr

/-- Model of a GPX `wptType` record (gpx.go `WptType`).  Numeric fields are
idealised rationals, the timestamp is a `GoTime`, and the opaque extensions
payload is the raw inner XML when present. -/
structure WptType where
  Lat : ℚ
  Lon : ℚ
  Ele : ℚ
  Speed : ℚ
  Course : ℚ
  Time : GoTime
  MagVar : ℚ
  GeoidHeight : ℚ
  Name : String
  Cmt : String
  Desc : String
  Src : String
  Link : List LinkType
  Sym : String
  «Type» : String
  Fix : String
  Sat : ℤ
  HDOP : ℚ
  VDOP : ℚ
  PDOP : ℚ
  AgeOfDGPSData : ℚ
  DGPSID : List ℤ
  Extensions : Option String
deriving DecidableEq, Repr

/-- The zero `WptType` value (all fields at their Go zero values; the
timestamp zero value is the zero `time.Time`). -/
def emptyWptType : WptType :=
  ⟨0, 0, 0, 0, 0, goZeroTime, 0, 0, "", "", "", "", [], "", "", "", 0, 0, 0, 0, 0, [], none⟩

/-- Embedding of `WptType.appendFlatCoords` (gpx.go): appends the point's
coordinates for the given layout to `flatCoords`. -/
def WptType.appendFlatCoords (w : WptType) (flatCoords : List ℚ) (layout : Layout) : List ℚ :=
  match layout with
  | .noLayout => flatCoords
  | .xy => flatCoords ++ [w.Lon, w.Lat]
  | .xyz => flatCoords ++ [w.Lon, w.Lat, w.Ele]
  | .xym => flatCoords ++ [w.Lon, w.Lat, TimeToM w.Time]
  | .xyzm => flatCoords ++ [w.Lon, w.Lat, w.Ele, TimeToM w.Time]
  | .custom n => (flatCoords ++ [w.Lon, w.Lat, w.Ele, TimeToM w.Time]) ++ List.replicate (n - 4) 0

/-- Embedding of `WptType.Geom` (gpx.go): the point with the waypoint's
flat coordinates under `layout`. -/
def WptType.Geom (w : WptType) (layout : Layout) : Point :=
  ⟨layout, w.appendFlatCoords [] layout⟩

/-- Embedding of `NewWptType` (gpx.go): builds a waypoint from a point,
reading `Lat`/`Lon` always, `Ele` when the layout has a Z axis and `Time`
(via `MToTime`) when it has an M axis.  (Go indexes the flat-coordinate
slice directly and would panic out of range; the model reads a default `0`
there, which no in-range use below exercises.) -/
def NewWptType (g : Point) : WptType :=
  let w₀ := { emptyWptType with
    Lat := g.flatCoords.getD 1 0
    Lon := g.flatCoords.getD 0 0 }
  let w₁ :=
    if g.layout.zIndex = -1 then w₀
    else { w₀ with Ele := g.flatCoords.getD g.layout.zIndex.toNat 0 }
  if g.layout.mIndex = -1 then w₁
  else { w₁ with Time := MToTime (g.flatCoords.getD g.layout.mIndex.toNat 0) }

/-- The epoch constructor call `time.Unix(0, 0)` is the time with zero
Unix nanoseconds, in the local zone. -/
theorem goUnix_zero : goUnix 0 0 = ⟨0, false⟩ := by
  rw [goUnix]
  norm_num

/-- A time at the epoch instant is not the zero sentinel, so `TimeToM`
computes `0/1e9 = 0` for it arithmetically. -/
theorem timeToM_zero_nanos (b : Bool) : TimeToM ⟨0, b⟩ = 0 := by
  rw [TimeToM]
  have h : GoTime.IsZero ⟨0, b⟩ = false := by
    show ((0 : ℤ) == goZeroNanos) = false
    decide
  rw [h]
  simp

/-- C1 counterexample: `MToTime 0` is the Unix epoch instant `time.Unix(0, 0)`
and is not the zero-time "absent" sentinel, and decoding the measure of the
sentinel does not yield the sentinel back. -/
theorem mToTime_zero_yields_epoch_counterexample :
    MToTime 0 = goUnix 0 0 ∧ MToTime 0 ≠ goZeroTime
      ∧ MToTime (TimeToM goZeroTime) ≠ goZeroTime := by
  refine ⟨by decide, by decide, by decide⟩

/-- C1 (amended): `MToTime 0` is the Unix epoch instant `time.Unix(0, 0)` (in
local time), not the zero sentinel; `TimeToM` maps both the sentinel and the
epoch instant to `0`; decoding that `0` yields the epoch instant (the lossy
direction is sentinel-to-epoch); and for `m ≠ 0` the timestamp is rebuilt by
integer split into seconds and truncated nanosecond remainder, normalised to
UTC. -/
theorem mToTime_epoch_sentinel_corrected :
    MToTime 0 = goUnix 0 0
      ∧ TimeToM goZeroTime = 0
      ∧ TimeToM (goUnix 0 0) = 0
      ∧ TimeToM ((goUnix 0 0).toUTC) = 0
      ∧ MToTime (TimeToM goZeroTime) = goUnix 0 0
      ∧ ∀ m : ℚ, m ≠ 0 →
          (MToTime m).utc = true
            ∧ (MToTime m).unixNanos =
                ratTrunc m * (nanosPerSecond : ℤ)
                  + Int.tmod (ratTrunc (m * (nanosPerSecond : ℚ))) (nanosPerSecond : ℤ) := by
  refine ⟨by decide, by decide, ?_, ?_, by decide, ?_⟩
  · rw [goUnix_zero]
    exact timeToM_zero_nanos false
  · rw [goUnix_zero]
    exact timeToM_zero_nanos true
  · intro m hm
    rw [MToTime, if_neg hm]
    exact ⟨rfl, rfl⟩

/-- C1 witness: the amended theorem applied at the concrete measure `3/2`,
giving the instant 1.5 seconds after the epoch, in UTC. -/
theorem mToTime_epoch_sentinel_corrected_witness :
    ((3 : ℚ) / 2 ≠ 0)
      ∧ (MToTime ((3 : ℚ) / 2)).utc = true
      ∧ (MToTime ((3 : ℚ) / 2)).unixNanos = 1500000000 := by
  have h := mToTime_epoch_sentinel_corrected.2.2.2.2.2 ((3 : ℚ) / 2) (by norm_num)
  refine ⟨by norm_num, h.1, ?_⟩
  rw [h.2]
  have e₁ : ratTrunc ((3 : ℚ) / 2) = 1 := by
    rw [ratTrunc, if_pos (by norm_num)]
    norm_num
  have e₂ : (3 : ℚ) / 2 * ((nanosPerSecond : ℕ) : ℚ) = ((1500000000 : ℤ) : ℚ) := by
    norm_num [nanosPerSecond]
  have e₃ : ratTrunc ((3 : ℚ) / 2 * ((nanosPerSecond : ℕ) : ℚ)) = 1500000000 := by
    rw [e₂, ratTrunc_intCast]
  rw [e₁, e₃]
  decide

/-- The concrete waypoint refuting C3: latitude, longitude, elevation and
time are all set, with the timestamp being the Unix epoch instant in UTC
(`time.Unix(0, 0).UTC()`), which is not the zero sentinel. -/
def c3Wpt : WptType :=
  { emptyWptType with Lat := 1, Lon := 2, Ele := 3, Time := ⟨0, true⟩ }

/-- C3 counterexample: for `c3Wpt` (all four XYZM fields set), decoding the
XYZM encoding does not return an equal `Time` field: the epoch-UTC timestamp
encodes to measure `0`, which decodes to `time.Unix(0, 0)` in local time. -/
theorem geom_xyzm_epoch_utc_counterexample :
    c3Wpt.Time.IsZero = false
      ∧ (NewWptType (c3Wpt.Geom .xyzm)).Lat = c3Wpt.Lat
      ∧ (NewWptType (c3Wpt.Geom .xyzm)).Lon = c3Wpt.Lon
      ∧ (NewWptType (c3Wpt.Geom .xyzm)).Ele = c3Wpt.Ele
      ∧ (NewWptType (c3Wpt.Geom .xyzm)).Time ≠ c3Wpt.Time := by
  have hm : TimeToM c3Wpt.Time = 0 := timeToM_zero_nanos true
  refine ⟨by decide, by decide, by decide, by decide, ?_⟩
  show MToTime (TimeToM c3Wpt.Time) ≠ c3Wpt.Time
  rw [hm, MToTime, if_pos rfl, goUnix_zero]
  intro h
  exact Bool.false_ne_true (congrArg GoTime.utc h)

/-- C3 (amended): for a waypoint whose timestamp is set (not the sentinel),
UTC-located and not the epoch instant, decoding the XYZM encoding restores
`Lat`, `Lon`, `Ele` and `Time` exactly (measures idealised as rationals). -/
theorem geom_xyzm_roundTrip_utc (w : WptType) (hutc : w.Time.utc = true)
    (hz : w.Time.IsZero = false) (hn : w.Time.unixNanos ≠ 0) :
    (NewWptType (w.Geom .xyzm)).Lat = w.Lat
      ∧ (NewWptType (w.Geom .xyzm)).Lon = w.Lon
      ∧ (NewWptType (w.Geom .xyzm)).Ele = w.Ele
      ∧ (NewWptType (w.Geom .xyzm)).Time = w.Time := by
  have hround := mToTime_timeToM w.Time hutc hz hn
  refine ⟨rfl, rfl, rfl, ?_⟩
  show MToTime (TimeToM w.Time) = w.Time
  exact hround

/-- C3 witness: the amended round trip at a concrete waypoint carrying the
instant 2001-11-28T21:05:28Z (Unix second 1006981528). -/
theorem geom_xyzm_roundTrip_utc_witness :
    (NewWptType ((({ emptyWptType with
        Lat := 42438878 / 1000000
        Lon := -71119277 / 1000000
        Ele := 44586548 / 1000000
        Time := ⟨1006981528 * 1000000000, true⟩ } : WptType)).Geom .xyzm)).Time
      = (⟨1006981528 * 1000000000, true⟩ : GoTime) := by
  have h := geom_xyzm_roundTrip_utc
    { emptyWptType with
      Lat := 42438878 / 1000000
      Lon := -71119277 / 1000000
      Ele := 44586548 / 1000000
      Time := ⟨1006981528 * 1000000000, true⟩ }
    (by decide) (by decide) (by decide)
  exact h.2.2.2

/-- Error values surfaced by the embedded decode paths: a transport error
from the external XML tokenizer, the Copyright-year semantic error
(`fmt.Errorf("couldn't parse Copyright year: %s", ...)`), a `time.Parse`
failure for a given layout and input, and `errNoTimeLayout`. -/
inductive GoError where
  | xmlTransport (msg : String)
  | copyrightYear (text : String)
  | timeParseError (layout value : String)
  | noTimeLayout
deriving DecidableEq, Repr

/-- Value of an XML attribute in the token model: either a plain string or
a float rendered by the encoder's `strconv.FormatFloat(v, 'f', -1, 64)`
(shortest round-trippable decimal, an injective rendering kept symbolic
here). -/
inductive AttrVal where
  | str (s : String)
  | num (q : ℚ)
deriving DecidableEq, Repr

/-- Output token stream of the XML encoder, the byte-level serialisation
being the external encoder's deterministic, order-preserving rendering of
these tokens.  `felem` is a child element whose text is the shortest
round-trippable decimal of the value; `linkElem` and `extElem` stand for
the tag-driven encodings of a `link` child and of the raw extensions
payload. -/
inductive Tok where
  | start (name : String) (attrs : List (String × AttrVal))
  | close (name : String)
  | selem (name : String) (content : String)
  | felem (name : String) (value : ℚ)
  | linkElem (l : LinkType)
  | extElem (xmlPayload : String)
deriving DecidableEq, Repr

/-- Embedding of `emitStringElement` (gpx.go). -/
def emitStringElement (localName value : String) : List Tok :=
  [Tok.selem localName value]

/-- Embedding of `emitIntElement` (gpx.go): emits the decimal rendering
`strconv.Itoa(value)` as a string element. -/
def emitIntElement (localName : String) (value : ℤ) : List Tok :=
  emitStringElement localName (toString value)

/-- Embedding of `maybeEmitFloatElement` (gpx.go): suppressed exactly at
the zero value. -/
def maybeEmitFloatElement (localName : String) (value : ℚ) : List Tok :=
  if value = 0 then [] else [Tok.felem localName value]

/-- Embedding of `maybeEmitIntElement` (gpx.go). -/
def maybeEmitIntElement (localName : String) (value : ℤ) : List Tok :=
  if value = 0 then [] else emitIntElement localName value

/-- Embedding of `maybeEmitStringElement` (gpx.go). -/
def maybeEmitStringElement (localName value : String) : List Tok :=
  if value = "" then [] else emitStringElement localName value

/-- Calendar fields of an instant, used to model Go `Time.Format`. -/
structure CivilTime where
  year : ℤ
  month : ℤ
  day : ℤ
  hour : ℤ
  minute : ℤ
  second : ℤ
  nsec : ℤ
deriving DecidableEq, Repr

/-- Gregorian date from a day number relative to 1970-01-01 (the standard
civil-from-days integer algorithm, as used by Go's calendar conversion). -/
def civilFromDays (days : ℤ) : ℤ × ℤ × ℤ :=
  let z := days + 719468
  let era := Int.fdiv z 146097
  let doe := z - era * 146097
  let yoe := Int.fdiv (doe - Int.fdiv doe 1460 + Int.fdiv doe 36524 - Int.fdiv doe 146096) 365
  let y := yoe + era * 400
  let doy := doe - (365 * yoe + Int.fdiv yoe 4 - Int.fdiv yoe 100)
  let mp := Int.fdiv (5 * doy + 2) 153
  let d := doy - Int.fdiv (153 * mp + 2) 5 + 1
  let m := mp + (if mp < 10 then 3 else -9)
  (y + (if m ≤ 2 then 1 else 0), m, d)

/-- Calendar fields (UTC) of an instant given in Unix nanoseconds. -/
def civilOfNanos (nanos : ℤ) : CivilTime :=
  let totalSec := Int.fdiv nanos (nanosPerSecond : ℤ)
  let nsec := nanos - (nanosPerSecond : ℤ) * totalSec
  let days := Int.fdiv totalSec 86400
  let rem := totalSec - 86400 * days
  let ymd := civilFromDays days
  let hh := Int.fdiv rem 3600
  let mi := Int.fdiv (rem - 3600 * hh) 60
  let ss := rem - 3600 * hh - 60 * mi
  ⟨ymd.1, ymd.2.1, ymd.2.2, hh, mi, ss, nsec⟩

/-- Reference-layout chunks of Go `time.Format` that occur in this
codebase's layouts: 4-digit year, zero-padded month/day/hour/minute/second,
trimmed nanosecond fraction, ISO 8601 zone, and literal characters. -/
inductive LayoutChunk where
  | year4
  | mon2
  | day2
  | hour2
  | min2
  | sec2
  | fracNano
  | zoneISO
  | lit (c : Char)
deriving DecidableEq, Repr

/-- Scanner for the supported reference-layout chunks, mirroring Go's
`nextStdChunk` restricted to the chunks above (first match wins, anything
else is a literal). -/
def layoutChunks : List Char → List LayoutChunk
  | [] => []
  | '2' :: '0' :: '0' :: '6' :: rest => .year4 :: layoutChunks rest
  | '0' :: '1' :: rest => .mon2 :: layoutChunks rest
  | '0' :: '2' :: rest => .day2 :: layoutChunks rest
  | '1' :: '5' :: rest => .hour2 :: layoutChunks rest
  | '0' :: '4' :: rest => .min2 :: layoutChunks rest
  | '0' :: '5' :: rest => .sec2 :: layoutChunks rest
  | '.' :: '9' :: '9' :: '9' :: '9' :: '9' :: '9' :: '9' :: '9' :: '9' :: rest =>
      .fracNano :: layoutChunks rest
  | 'Z' :: '0' :: '7' :: ':' :: '0' :: '0' :: rest => .zoneISO :: layoutChunks rest
  | c :: rest => .lit c :: layoutChunks rest

/-- Two-digit zero-padded decimal (for in-range calendar fields). -/
def pad2 (n : ℤ) : String :=
  if n < 10 then "0" ++ toString n else toString n

/-- Four-digit zero-padded decimal (for the years appearing here). -/
def pad4 (n : ℤ) : String :=
  if n < 10 then "000" ++ toString n
  else if n < 100 then "00" ++ toString n
  else if n < 1000 then "0" ++ toString n
  else toString n

/-- Nine-digit zero-padded decimal for a nanosecond count. -/
def pad9 (n : ℤ) : String :=
  let s := toString n
  String.mk (List.replicate (9 - s.length) '0') ++ s

/-- Drops trailing zeros, as Go's trimmed fraction formatting does. -/
def trimZeros (s : String) : String :=
  String.mk (s.data.reverse.dropWhile (fun c => c == '0')).reverse

/-- Rendering of one layout chunk from the calendar fields of a UTC time. -/
def renderChunk (ct : CivilTime) : LayoutChunk → String
  | .year4 => pad4 ct.year
  | .mon2 => pad2 ct.month
  | .day2 => pad2 ct.day
  | .hour2 => pad2 ct.hour
  | .min2 => pad2 ct.minute
  | .sec2 => pad2 ct.second
  | .fracNano => if ct.nsec = 0 then "" else "." ++ trimZeros (pad9 ct.nsec)
  | .zoneISO => "Z"
  | .lit c => String.singleton c

/-- Model of Go `t.UTC().Format(layout)` for an instant given in Unix
nanoseconds, covering the layout chunks used by this codebase. -/
def goFormatUTC (layout : String) (nanos : ℤ) : String :=
  String.join ((layoutChunks layout.data).map (renderChunk (civilOfNanos nanos)))

/-- The constant `time.RFC3339Nano`. -/
def rfc3339Nano : String := "2006-01-02T15:04:05.999999999Z07:00"

/-- Embedding of the initial value of the package-global `timeLayouts`
(gpx.go): `[]string{time.RFC3339Nano, "2006-01-02T15:04:05.999999999"}`. -/
def defaultTimeLayouts : List String :=
  [rfc3339Nano, "2006-01-02T15:04:05.999999999"]

/-- The extensions segment of `WptType.MarshalXML`: the raw payload
re-emitted when present (`if w.Extensions != nil`), omitted when absent. -/
def extensionToks : Option String → List Tok
  | none => []
  | some x => [Tok.extElem x]

/-- Embedding of `WptType.MarshalXML` (gpx.go): appends the `lat`/`lon`
attributes to the caller's start tag, then emits the optional child
elements in the source's fixed order, each suppressed at its zero value,
the timestamp gated on `IsZero` and rendered with `timeLayouts[0]`.
(Go would panic on an empty layout list; the model formats with the empty
layout instead, a case no theorem below exercises.) -/
def wptMarshalXML (layouts : List String) (startName : String)
    (startAttrs : List (String × AttrVal)) (w : WptType) : List Tok :=
  [Tok.start startName (startAttrs ++ [("lat", .num w.Lat), ("lon", .num w.Lon)])]
    ++ maybeEmitFloatElement "ele" w.Ele
    ++ maybeEmitFloatElement "speed" w.Speed
    ++ maybeEmitFloatElement "course" w.Course
    ++ (if w.Time.IsZero then []
        else maybeEmitStringElement "time" (goFormatUTC (layouts.headD "") w.Time.unixNanos))
    ++ maybeEmitFloatElement "magvar" w.MagVar
    ++ maybeEmitFloatElement "geoidheight" w.GeoidHeight
    ++ maybeEmitStringElement "name" w.Name
    ++ maybeEmitStringElement "cmt" w.Cmt
    ++ maybeEmitStringElement "desc" w.Desc
    ++ maybeEmitStringElement "src" w.Src
    ++ w.Link.map Tok.linkElem
    ++ maybeEmitStringElement "sym" w.Sym
    ++ maybeEmitStringElement "type" w.«Type»
    ++ maybeEmitStringElement "fix" w.Fix
    ++ maybeEmitIntElement "sat" w.Sat
    ++ maybeEmitFloatElement "hdop" w.HDOP
    ++ maybeEmitFloatElement "vdop" w.VDOP
    ++ maybeEmitFloatElement "pdop" w.PDOP
    ++ maybeEmitFloatElement "ageofdgpsdata" w.AgeOfDGPSData
    ++ (w.DGPSID.map (fun dgpsid => Tok.selem "dgpsid" (toString dgpsid)))
    ++ extensionToks w.Extensions
    ++ [Tok.close startName]

/-- Embedding of the GPX document root (gpx.go `GPX`) restricted to the
fields the claims below touch.  `XMLAttrs` holds the contents of the Go
`map[string]string` as an unordered entry list (keys distinct); the
`Metadata`, `Rte`, `Trk` and `Extensions` subtrees are delegated to the
tag-driven encoder and appear in no claim, so they are left out of the
fragment. -/
structure GPX where
  XMLSchemaLocations : List String
  XMLAttrs : List (String × String)
  Version : String
  Creator : String
  Wpt : List WptType
deriving DecidableEq, Repr

/-- The freshly-allocated document Read starts from (`gpx := &GPX{}`). -/
def emptyGPX : GPX :=
  ⟨[], [], "", "", []⟩

/-- The constant `http` (gpx.go). -/
def httpPrefix : String := "http://"

/-- The constant `https` (gpx.go). -/
def httpsPrefix : String := "https://"

/-- Decidable equality for `Except` results of the embedded fallible
operations. -/
instance exceptDecEq {ε α : Type} [DecidableEq ε] [DecidableEq α] :
    DecidableEq (Except ε α) := fun x y =>
  match x, y with
  | .ok a, .ok b =>
    if h : a = b then isTrue (by rw [h]) else isFalse (fun hh => h (Except.ok.inj hh))
  | .error a, .error b =>
    if h : a = b then isTrue (by rw [h]) else isFalse (fun hh => h (Except.error.inj hh))
  | .ok _, .error _ => isFalse (fun hh => Except.noConfusion hh)
  | .error _, .ok _ => isFalse (fun hh => Except.noConfusion hh)

/-- Embedding of `strings.Join(strings.Split(version, "."), "/")` used in
`GPX.MarshalXML`: since the separator is the single character dot, the
split-then-join is exactly the replacement of every dot by a slash. -/
def dotsToSlashes (s : String) : String :=
  String.mk (s.data.map (fun c => if c == '.' then '/' else c))

/-- Embedding of the root attribute synthesis in `GPX.MarshalXML` (gpx.go):
fixed order `version`, `creator`, `xmlns:xsi`, `xmlns` (version dots
replaced by slashes, appended to the base URL), `xsi:schemaLocation`
(`http` base, `https` base + "/gpx.xsd", then the caller's extra tokens,
space-joined), then the `XMLAttrs` map entries in iteration order
`xmlAttrsOrder` (Go map iteration order is unspecified, so it is an
explicit parameter here). -/
def gpxStartAttrs (g : GPX) (xmlAttrsOrder : List (String × String)) : List (String × AttrVal) :=
  let baseURL := "www.topografix.com/GPX/" ++ dotsToSlashes g.Version
  let xmlSchemaLocations :=
    [httpPrefix ++ baseURL, httpsPrefix ++ baseURL ++ "/gpx.xsd"] ++ g.XMLSchemaLocations
  [("version", AttrVal.str g.Version),
   ("creator", AttrVal.str g.Creator),
   ("xmlns:xsi", AttrVal.str (httpPrefix ++ "www.w3.org/2001/XMLSchema-instance")),
   ("xmlns", AttrVal.str (httpPrefix ++ baseURL)),
   ("xsi:schemaLocation", AttrVal.str (String.intercalate " " xmlSchemaLocations))]
    ++ xmlAttrsOrder.map (fun kv => (kv.1, AttrVal.str kv.2))

/-- Embedding of `GPX.MarshalXML` (gpx.go) on the modelled fragment: the
`gpx` start tag with the synthesised attributes, the waypoints in order
(each marshalled under a `wpt` start tag), and the end tag.  `g.Write` and
`g.WriteIndent` are the external encoder's deterministic renderings of
this token stream. -/
def gpxMarshalXML (layouts : List String) (g : GPX)
    (xmlAttrsOrder : List (String × String)) : List Tok :=
  [Tok.start "gpx" (gpxStartAttrs g xmlAttrsOrder)]
    ++ (g.Wpt.map (fun w => wptMarshalXML layouts "wpt" [] w)).flatten
    ++ [Tok.close "gpx"]

/-- The package-global mutable state of gpx.go: the `timeLayouts` list. -/
structure GlobalState where
  timeLayouts : List String
deriving DecidableEq, Repr

/-- The global state at package initialisation. -/
def initialState : GlobalState :=
  ⟨defaultTimeLayouts⟩

/-- Embedding of `ReadOption` (gpx.go `func()`): an update of the package
globals. -/
def ReadOption : Type := GlobalState → GlobalState

/-- Embedding of `WithTimeLayout` (gpx.go): overwrites the global
`timeLayouts` with the single given layout. -/
def WithTimeLayout (layout : String) : ReadOption :=
  fun st => { st with timeLayouts := [layout] }

/-- Embedding of `WithTimeLayouts` (gpx.go): overwrites the global
`timeLayouts` with the given list. -/
def WithTimeLayouts (layouts : List String) : ReadOption :=
  fun st => { st with timeLayouts := layouts }

/-- The option-application loop at the top of `Read` (gpx.go):
`for _, option := range options { option() }`. -/
def applyReadOptions (st : GlobalState) (options : List ReadOption) : GlobalState :=
  options.foldl (fun s o => o s) st

/-- Embedding of `Read` (gpx.go).  The external charset-aware XML decoder
(`xml.Decoder.Decode` with `CharsetReader`) is the parameter `decode`: given
the current global `timeLayouts` (consulted by the unmarshal hooks via
`parseTime`) and the freshly-allocated document, it returns the document as
it left it (Go mutates it in place) together with the error, `none` meaning
success.  `Read` applies the options to the global state first and returns
the decoder's document-and-error pair exactly as the source does
(`return gpx, d.Decode(gpx)`); the updated global state persists. -/
def Read (decode : List String → GPX → GPX × Option GoError)
    (options : List ReadOption) (st : GlobalState) :
    (GPX × Option GoError) × GlobalState :=
  let st' := applyReadOptions st options
  (decode st'.timeLayouts emptyGPX, st')

/-- Loop body of `parseTime` (gpx.go): tries the indexed layouts in order
with the external `time.Parse` (the parameter `tryParse`); the first
success returns; a failure at index 0 replaces the accumulated first
error. -/
def parseTimeAux (tryParse : String → String → Option GoTime) (value : String) :
    List (ℕ × String) → GoError → Except GoError GoTime
  | [], firstErr => .error firstErr
  | (i, layout) :: rest, firstErr =>
    match tryParse layout value with
    | some t => .ok t
    | none => parseTimeAux tryParse value rest
        (if i = 0 then .timeParseError layout value else firstErr)

/-- Embedding of `parseTime` (gpx.go): `firstErr := errNoTimeLayout`, loop
over `timeLayouts` with index, return first success, otherwise the
accumulated error (Go also returns the zero `time.Time`, carried here by
the `Except` error case). -/
def parseTime (tryParse : String → String → Option GoTime)
    (layouts : List String) (value : String) : Except GoError GoTime :=
  parseTimeAux tryParse value layouts.enum .noTimeLayout

/-- First four characters as a fixed-width 4-digit number, per Go's
`getnum` with `fixed` width for the `2006` year chunk. -/
def parseYear4 : List Char → Option (ℕ × List Char)
  | a :: b :: c :: d :: rest =>
    if a.isDigit && b.isDigit && c.isDigit && d.isDigit then
      some ((a.toNat - 48) * 1000 + (b.toNat - 48) * 100 + (c.toNat - 48) * 10 + (d.toNat - 48),
        rest)
    else none
  | _ => none

/-- Modelled behaviour of the external Go `time.Parse(layout, value).Year()`
restricted to the three layouts of `copyrightYearLayouts`: `"2006"` is a
bare 4-digit year consuming the whole value, `"2006Z"` requires a literal
`Z` suffix, and `"2006-07:00"` requires a `±hh:mm` numeric zone suffix; in
each case the parsed wall-clock year is the 4-digit number. -/
def goParseYearLayout (layout value : String) : Option ℤ :=
  match parseYear4 value.data with
  | none => none
  | some (y, rest) =>
    if layout = "2006" then
      if rest = [] then some (y : ℤ) else none
    else if layout = "2006Z" then
      if rest = ['Z'] then some (y : ℤ) else none
    else if layout = "2006-07:00" then
      match rest with
      | [s, h₁, h₂, c, m₁, m₂] =>
        if (s == '+' || s == '-') && h₁.isDigit && h₂.isDigit && (c == ':')
            && m₁.isDigit && m₂.isDigit then
          some (y : ℤ)
        else none
      | _ => none
    else none

/-- Embedding of `copyrightYearLayouts` (gpx.go). -/
def copyrightYearLayouts : List String :=
  ["2006", "2006Z", "2006-07:00"]

/-- The layout loop of `CopyrightType.UnmarshalXML` (gpx.go): first layout
whose parse succeeds wins. -/
def parseCopyrightYearAux : List String → String → Option ℤ
  | [], _ => none
  | layout :: rest, value =>
    match goParseYearLayout layout value with
    | some y => some y
    | none => parseCopyrightYearAux rest value

/-- Model of a GPX `copyrightType` record. -/
structure CopyrightType where
  Author : String
  Year : ℤ
  License : String
deriving DecidableEq, Repr

/-- Embedding of `CopyrightType.UnmarshalXML` (gpx.go) after the alias
`DecodeElement` step: `author` and `license` are copied; a `nil` year
pointer (absent element) succeeds with `Year` left zero; otherwise the
layouts are tried in order and total failure is the descriptive error
naming the offending text. -/
def copyrightUnmarshalXML (author : String) (year : Option String) (license : String) :
    Except GoError CopyrightType :=
  match year with
  | none => .ok ⟨author, 0, license⟩
  | some y =>
    match parseCopyrightYearAux copyrightYearLayouts y with
    | some yr => .ok ⟨author, yr, license⟩
    | none => .error (.copyrightYear y)

/-- C8: decoding copyright year texts "2019Z", "2013" and "2011+05:00"
yields years 2019, 2013 and 2011; an absent year element is not an error
and leaves `Year` at 0; and any present year text that parses under none
of the known layouts fails the decode with the error naming the text. -/
theorem copyright_year_parse_spec :
    copyrightUnmarshalXML "" (some "2019Z") "" = .ok ⟨"", 2019, ""⟩
      ∧ copyrightUnmarshalXML "" (some "2013") "" = .ok ⟨"", 2013, ""⟩
      ∧ copyrightUnmarshalXML "" (some "2011+05:00") "" = .ok ⟨"", 2011, ""⟩
      ∧ (∀ author license,
          copyrightUnmarshalXML author none license = .ok ⟨author, 0, license⟩)
      ∧ (∀ author license text,
          parseCopyrightYearAux copyrightYearLayouts text = none →
            copyrightUnmarshalXML author (some text) license = .error (.copyrightYear text)) := by
  refine ⟨rfl, rfl, rfl, fun a l => rfl, ?_⟩
  intro a l t h
  simp [copyrightUnmarshalXML, h]

/-- C8 witness: the unparseable-year case of the theorem applied at the
concrete text "not-a-year", whose parse fails under all three layouts. -/
theorem copyright_year_parse_spec_witness :
    parseCopyrightYearAux copyrightYearLayouts "not-a-year" = none
      ∧ copyrightUnmarshalXML "Author" (some "not-a-year") "MIT"
          = .error (.copyrightYear "not-a-year") := by
  have h : parseCopyrightYearAux copyrightYearLayouts "not-a-year" = none := rfl
  exact ⟨h, copyright_year_parse_spec.2.2.2.2 "Author" "MIT" "not-a-year" h⟩

/-- Specification-shaped description of `parseTime` for the amended C6:
the first layout that parses successfully wins; when every layout fails
the result is the FIRST layout's parse error, and only for an empty layout
list is it the `errNoTimeLayout` error (together with the zero time,
carried by the error case). -/
def parseTimeSpec (tryParse : String → String → Option GoTime)
    (layouts : List String) (value : String) : Except GoError GoTime :=
  match layouts.findSome? (fun l => tryParse l value) with
  | some t => .ok t
  | none =>
    .error (match layouts with
      | [] => .noTimeLayout
      | l₀ :: _ => .timeParseError l₀ value)

/-- Tail of the `parseTime` loop: past index 0 the accumulated error is
never replaced, so the loop returns the first success or the error it was
handed. -/
theorem parseTimeAux_enumFrom (tp : String → String → Option GoTime) (value : String)
    (rest : List String) :
    ∀ (k : ℕ), k ≠ 0 → ∀ (e : GoError),
      parseTimeAux tp value (List.enumFrom k rest) e =
        (match rest.findSome? (fun l => tp l value) with
          | some t => Except.ok t
          | none => Except.error e) := by
  induction rest with
  | nil =>
    intro k hk e
    rfl
  | cons l rest ih =>
    intro k hk e
    show parseTimeAux tp value ((k, l) :: List.enumFrom (k + 1) rest) e = _
    cases h : tp l value with
    | some t =>
      simp [parseTimeAux, h, List.findSome?_cons]
    | none =>
      simp [parseTimeAux, h, List.findSome?_cons, hk]
      exact ih (k + 1) (by omega) e

/-- C6 (amended): `parseTime` tries the configured layouts in order and
returns the first successful parse; when every layout fails it returns the
first layout's parse error — the "no time layout" error appears only when
the configured layout list is empty. -/
theorem parseTime_first_success_first_error (tp : String → String → Option GoTime)
    (layouts : List String) (value : String) :
    parseTime tp layouts value = parseTimeSpec tp layouts value := by
  cases layouts with
  | nil => rfl
  | cons l₀ rest =>
    show parseTimeAux tp value (List.enumFrom 0 (l₀ :: rest)) GoError.noTimeLayout = _
    rw [List.enumFrom_cons]
    cases h : tp l₀ value with
    | some t =>
      simp [parseTimeAux, h, parseTimeSpec, List.findSome?_cons]
    | none =>
      have htail := parseTimeAux_enumFrom tp value rest 1 (by omega)
        (GoError.timeParseError l₀ value)
      simp [parseTimeAux, h, parseTimeSpec, List.findSome?_cons, htail]

/-- The always-failing parse oracle: it stands for the external `time.Parse`
at inputs that match no layout (for instance the value "x", which parses
under neither entry of `defaultTimeLayouts`). -/
def failTryParse : String → String → Option GoTime := fun _ _ => none

/-- C6 counterexample: with the default (non-empty) layout list and a value
failing every layout, `parseTime` returns the first layout's parse error,
not the "no time layout" error the claim promises. -/
theorem parseTime_error_counterexample :
    failTryParse rfc3339Nano "x" = none
      ∧ failTryParse "2006-01-02T15:04:05.999999999" "x" = none
      ∧ parseTime failTryParse defaultTimeLayouts "x"
          = .error (.timeParseError rfc3339Nano "x")
      ∧ parseTime failTryParse defaultTimeLayouts "x" ≠ .error .noTimeLayout := by
  exact ⟨rfl, rfl, rfl, by decide⟩

/-- The failing input for C5, the first document of the repository's
round-trip test: version "1.0" with the ExpertGPS creator string. -/
def c5GPX : GPX :=
  { emptyGPX with Version := "1.0", Creator := "ExpertGPS 1.1 - http://www.topografix.com" }

/-- C5 (code bug): the root attributes are synthesised in the claimed fixed
order, but the second `xsi:schemaLocation` token is emitted with the
`https://` scheme, while the claim — and the repository's own round-trip
test, which asserts `WriteIndent` output byte-for-byte — expect
`http://www.topografix.com/GPX/1/0/gpx.xsd`. -/
theorem gpx_schemaLocation_https_eval :
    gpxStartAttrs c5GPX [] =
      [("version", AttrVal.str "1.0"),
       ("creator", AttrVal.str "ExpertGPS 1.1 - http://www.topografix.com"),
       ("xmlns:xsi", AttrVal.str "http://www.w3.org/2001/XMLSchema-instance"),
       ("xmlns", AttrVal.str "http://www.topografix.com/GPX/1/0"),
       ("xsi:schemaLocation",
         AttrVal.str
           "http://www.topografix.com/GPX/1/0 https://www.topografix.com/GPX/1/0/gpx.xsd")]
      ∧ (gpxStartAttrs c5GPX []).getD 4 ("", AttrVal.str "")
          ≠ ("xsi:schemaLocation",
              AttrVal.str
                "http://www.topografix.com/GPX/1/0 http://www.topografix.com/GPX/1/0/gpx.xsd") := by
  exact ⟨by decide, by decide⟩

/-- The document with two extra namespace attributes used against C9. -/
def c9GPX : GPX :=
  { emptyGPX with
    Version := "1.1"
    Creator := "c"
    XMLAttrs := [("xmlns:a", "1"), ("xmlns:b", "2")] }

/-- C9 counterexample: both orders are valid iteration orders of the
two-entry `XMLAttrs` map (Go map iteration order is unspecified), yet they
serialise to different token streams — the attribute lists differ — so two
`Write` calls need not produce byte-identical output. -/
theorem gpx_write_map_order_counterexample :
    List.Perm [("xmlns:a", "1"), ("xmlns:b", "2")] c9GPX.XMLAttrs
      ∧ List.Perm [("xmlns:b", "2"), ("xmlns:a", "1")] c9GPX.XMLAttrs
      ∧ gpxMarshalXML defaultTimeLayouts c9GPX [("xmlns:a", "1"), ("xmlns:b", "2")]
          ≠ gpxMarshalXML defaultTimeLayouts c9GPX [("xmlns:b", "2"), ("xmlns:a", "1")] := by
  exact ⟨by decide, by decide, by decide⟩

/-- C9 (amended): serialisation is deterministic except for the iteration
order of the `XMLAttrs` map: whenever that map has at most one entry, any
two valid iteration orders produce identical output. -/
theorem gpx_write_deterministic_le_one_attr (layouts : List String) (g : GPX)
    (ord₁ ord₂ : List (String × String)) (h₁ : ord₁.Perm g.XMLAttrs)
    (h₂ : ord₂.Perm g.XMLAttrs) (hlen : g.XMLAttrs.length ≤ 1) :
    gpxMarshalXML layouts g ord₁ = gpxMarshalXML layouts g ord₂ := by
  have heq : ord₁ = ord₂ := by
    cases hx : g.XMLAttrs with
    | nil =>
      rw [hx] at h₁ h₂
      rw [List.perm_nil.mp h₁, List.perm_nil.mp h₂]
    | cons a t =>
      cases t with
      | nil =>
        rw [hx] at h₁ h₂
        rw [List.perm_singleton.mp h₁, List.perm_singleton.mp h₂]
      | cons b t₂ =>
        rw [hx] at hlen
        simp at hlen
  rw [heq]

/-- C9 witness: the amended determinism applied to a concrete document with
a single extra attribute. -/
theorem gpx_write_deterministic_le_one_attr_witness :
    gpxMarshalXML defaultTimeLayouts { emptyGPX with XMLAttrs := [("xmlns:a", "1")] }
        [("xmlns:a", "1")]
      = gpxMarshalXML defaultTimeLayouts { emptyGPX with XMLAttrs := [("xmlns:a", "1")] }
        [("xmlns:a", "1")] :=
  gpx_write_deterministic_le_one_attr defaultTimeLayouts
    { emptyGPX with XMLAttrs := [("xmlns:a", "1")] }
    [("xmlns:a", "1")] [("xmlns:a", "1")] (by decide) (by decide) (by decide)

/-- A waypoint with a set (non-sentinel) UTC timestamp, the instant
2001-11-28T21:05:28Z, used against C4 and C7. -/
def c4Wpt : WptType :=
  { emptyWptType with
    Lat := 1
    Lon := 2
    Time := ⟨1006981528 * 1000000000, true⟩ }

/-- A document holding the single timestamped waypoint above. -/
def c4GPX : GPX :=
  { emptyGPX with
    Version := "1.1"
    Creator := "c"
    Wpt := [c4Wpt] }

/-- A decode collaborator whose input decodes successfully to the empty
document; for C4 only the Read call's option side effect matters. -/
def trivialDecode : List String → GPX → GPX × Option GoError :=
  fun _ g => (g, none)

/-- C4 counterexample: a `Read` call with `WithTimeLayout "2006"` leaves the
global layout list overridden, and a later `Write` of a document with a set
waypoint timestamp serialises differently from a `Write` under the initial
globals — the waypoint `<time>` text becomes "2001" instead of
"2001-11-28T21:05:28Z" — so the override does not affect decoding only. -/
theorem timeLayout_override_changes_write_counterexample :
    ((Read trivialDecode [WithTimeLayout "2006"] initialState).2).timeLayouts = ["2006"]
      ∧ gpxMarshalXML
            ((Read trivialDecode [WithTimeLayout "2006"] initialState).2).timeLayouts
            c4GPX []
          ≠ gpxMarshalXML initialState.timeLayouts c4GPX [] := by
  exact ⟨rfl, by decide⟩

/-- A waypoint marshal does not depend on the layout globals when its
timestamp is the zero sentinel (the only use of the globals is the
timestamp format). -/
theorem wptMarshal_layout_independent (layouts₁ layouts₂ : List String)
    (startName : String) (startAttrs : List (String × AttrVal)) (w : WptType)
    (hz : w.Time.IsZero = true) :
    wptMarshalXML layouts₁ startName startAttrs w
      = wptMarshalXML layouts₂ startName startAttrs w := by
  simp [wptMarshalXML, hz]

/-- C4 (amended): overriding the time-layout list changes decoding and the
timestamp format of subsequent marshals; the serialised bytes are unchanged
only for documents whose waypoints all carry the zero (absent) timestamp. -/
theorem write_layout_independent_when_no_set_times (layouts₁ layouts₂ : List String)
    (g : GPX) (xmlAttrsOrder : List (String × String))
    (h : ∀ w ∈ g.Wpt, w.Time.IsZero = true) :
    gpxMarshalXML layouts₁ g xmlAttrsOrder = gpxMarshalXML layouts₂ g xmlAttrsOrder := by
  have hmap : g.Wpt.map (fun w => wptMarshalXML layouts₁ "wpt" [] w)
      = g.Wpt.map (fun w => wptMarshalXML layouts₂ "wpt" [] w) := by
    apply List.map_congr_left
    intro w hw
    exact wptMarshal_layout_independent layouts₁ layouts₂ "wpt" [] w (h w hw)
  rw [gpxMarshalXML, gpxMarshalXML, hmap]

/-- C4 witness: a document with one waypoint with an unset timestamp
serialises identically under the override `["2006"]` and the defaults. -/
theorem write_layout_independent_when_no_set_times_witness :
    gpxMarshalXML ["2006"] { emptyGPX with Wpt := [emptyWptType] } []
      = gpxMarshalXML defaultTimeLayouts { emptyGPX with Wpt := [emptyWptType] } [] :=
  write_layout_independent_when_no_set_times ["2006"] defaultTimeLayouts
    { emptyGPX with Wpt := [emptyWptType] } [] (by decide)

/-- C10: `Read` with `WithTimeLayout`/`WithTimeLayouts` overwrites the
package-global layout list before decoding and never restores it: the
option's Read decodes under the new list, a later optionless `Read` still
decodes under it and leaves it in place, waypoint marshalling formats with
it, and it stays until the next override. -/
theorem read_option_overwrites_global_layouts
    (dec dec₂ : List String → GPX → GPX × Option GoError)
    (st : GlobalState) (l l₂ : String) (ls : List String) :
    ((Read dec [WithTimeLayout l] st).2).timeLayouts = [l]
      ∧ (Read dec [WithTimeLayout l] st).1 = dec [l] emptyGPX
      ∧ (Read dec₂ [] ((Read dec [WithTimeLayout l] st).2)).1 = dec₂ [l] emptyGPX
      ∧ (Read dec₂ [] ((Read dec [WithTimeLayout l] st).2)).2
          = (Read dec [WithTimeLayout l] st).2
      ∧ (∀ startName startAttrs w,
          wptMarshalXML ((Read dec [WithTimeLayout l] st).2).timeLayouts
              startName startAttrs w
            = wptMarshalXML [l] startName startAttrs w)
      ∧ ((Read dec [WithTimeLayouts ls] st).2).timeLayouts = ls
      ∧ ((Read dec₂ [WithTimeLayout l₂] ((Read dec [WithTimeLayout l] st).2)).2).timeLayouts
          = [l₂] := by
  exact ⟨rfl, rfl, rfl, rfl, fun _ _ _ => rfl, rfl, rfl⟩

/-- Number of child elements with the given local name in a token stream
(string and float elements; start/end tags, links and extensions are not
child elements of that name). -/
def elemCount (toks : List Tok) (name : String) : ℕ :=
  toks.countP (fun t =>
    match t with
    | .selem n _ => n == name
    | .felem n _ => n == name
    | _ => false)

/-- Counting distributes over token-stream concatenation. -/
theorem elemCount_append (a b : List Tok) (n : String) :
    elemCount (a ++ b) n = elemCount a n + elemCount b n :=
  List.countP_append _ _ _

/-- Count of a conditionally emitted float element. -/
theorem elemCount_maybeFloat (m n : String) (v : ℚ) :
    elemCount (maybeEmitFloatElement m v) n
      = if m == n then (if v = 0 then 0 else 1) else 0 := by
  rw [maybeEmitFloatElement]
  by_cases hv : v = 0
  · cases h : (m == n) <;> simp [hv, h, elemCount]
  · cases h : (m == n) <;> simp [hv, h, elemCount, List.countP_cons]

/-- Count of a conditionally emitted string element. -/
theorem elemCount_maybeString (m n value : String) :
    elemCount (maybeEmitStringElement m value) n
      = if m == n then (if value = "" then 0 else 1) else 0 := by
  rw [maybeEmitStringElement, emitStringElement]
  by_cases hv : value = ""
  · cases h : (m == n) <;> simp [hv, h, elemCount]
  · cases h : (m == n) <;> simp [hv, h, elemCount, List.countP_cons]

/-- Count of a conditionally emitted integer element. -/
theorem elemCount_maybeInt (m n : String) (v : ℤ) :
    elemCount (maybeEmitIntElement m v) n
      = if m == n then (if v = 0 then 0 else 1) else 0 := by
  rw [maybeEmitIntElement, emitIntElement, emitStringElement]
  by_cases hv : v = 0
  · cases h : (m == n) <;> simp [hv, h, elemCount]
  · cases h : (m == n) <;> simp [hv, h, elemCount, List.countP_cons]

/-- A start tag is not a child element. -/
theorem elemCount_start (n name : String) (attrs : List (String × AttrVal)) :
    elemCount [Tok.start name attrs] n = 0 := by
  simp [elemCount, List.countP_cons]

/-- An end tag is not a child element. -/
theorem elemCount_close (n name : String) :
    elemCount [Tok.close name] n = 0 := by
  simp [elemCount, List.countP_cons]

/-- A leading start tag does not contribute to the count. -/
theorem elemCount_cons_start (name : String) (attrs : List (String × AttrVal))
    (rest : List Tok) (n : String) :
    elemCount (Tok.start name attrs :: rest) n = elemCount rest n := by
  simp [elemCount, List.countP_cons]

/-- Link elements are separate tokens, not named child elements. -/
theorem elemCount_links (ls : List LinkType) (n : String) :
    elemCount (ls.map Tok.linkElem) n = 0 := by
  induction ls with
  | nil => rfl
  | cons l ls ih =>
    simp only [List.map_cons]
    simp [elemCount, List.countP_cons] at ih ⊢

/-- The DGPS station IDs are each emitted as a `dgpsid` element,
unconditionally. -/
theorem elemCount_dgpsid (ds : List ℤ) (n : String) :
    elemCount (ds.map (fun d => Tok.selem "dgpsid" (toString d))) n
      = if "dgpsid" == n then ds.length else 0 := by
  rw [elemCount, List.countP_map]
  cases h : ("dgpsid" == n) <;> simp [h, Function.comp]

/-- The extensions payload is a separate token, not a named child element. -/
theorem elemCount_ext (x : Option String) (n : String) :
    elemCount (extensionToks x) n = 0 := by
  cases x <;> simp [extensionToks, elemCount, List.countP_cons]

/-- Counting commutes with a conditional segment. -/
theorem elemCount_ite (b : Prop) [Decidable b] (x y : List Tok) (n : String) :
    elemCount (if b then x else y) n = if b then elemCount x n else elemCount y n := by
  split <;> rfl

/-- C7: encoding a waypoint omits each optional numeric or string child
element exactly when the field equals its type's zero value — in
particular `Speed = 0` produces no `speed` element while `Speed = 0.0001`
produces one — and the `time` element is suppressed exactly when the
timestamp is the zero sentinel.  The hypothesis records that the head
layout formats the timestamp to a non-empty string, which holds of every
real layout (the default head layout is RFC3339Nano). -/
theorem wpt_marshal_zero_suppression (layouts : List String) (startName : String)
    (startAttrs : List (String × AttrVal)) (w : WptType)
    (hfmt : goFormatUTC (layouts.headD "") w.Time.unixNanos ≠ "") :
    (elemCount (wptMarshalXML layouts startName startAttrs w) "ele"
        = if w.Ele = 0 then 0 else 1)
      ∧ (elemCount (wptMarshalXML layouts startName startAttrs w) "speed"
          = if w.Speed = 0 then 0 else 1)
      ∧ (elemCount (wptMarshalXML layouts startName startAttrs w) "course"
          = if w.Course = 0 then 0 else 1)
      ∧ (elemCount (wptMarshalXML layouts startName startAttrs w) "magvar"
          = if w.MagVar = 0 then 0 else 1)
      ∧ (elemCount (wptMarshalXML layouts startName startAttrs w) "geoidheight"
          = if w.GeoidHeight = 0 then 0 else 1)
      ∧ (elemCount (wptMarshalXML layouts startName startAttrs w) "name"
          = if w.Name = "" then 0 else 1)
      ∧ (elemCount (wptMarshalXML layouts startName startAttrs w) "cmt"
          = if w.Cmt = "" then 0 else 1)
      ∧ (elemCount (wptMarshalXML layouts startName startAttrs w) "desc"
          = if w.Desc = "" then 0 else 1)
      ∧ (elemCount (wptMarshalXML layouts startName startAttrs w) "src"
          = if w.Src = "" then 0 else 1)
      ∧ (elemCount (wptMarshalXML layouts startName startAttrs w) "sym"
          = if w.Sym = "" then 0 else 1)
      ∧ (elemCount (wptMarshalXML layouts startName startAttrs w) "type"
          = if w.«Type» = "" then 0 else 1)
      ∧ (elemCount (wptMarshalXML layouts startName startAttrs w) "fix"
          = if w.Fix = "" then 0 else 1)
      ∧ (elemCount (wptMarshalXML layouts startName startAttrs w) "sat"
          = if w.Sat = 0 then 0 else 1)
      ∧ (elemCount (wptMarshalXML layouts startName startAttrs w) "hdop"
          = if w.HDOP = 0 then 0 else 1)
      ∧ (elemCount (wptMarshalXML layouts startName startAttrs w) "vdop"
          = if w.VDOP = 0 then 0 else 1)
      ∧ (elemCount (wptMarshalXML layouts startName startAttrs w) "pdop"
          = if w.PDOP = 0 then 0 else 1)
      ∧ (elemCount (wptMarshalXML layouts startName startAttrs w) "ageofdgpsdata"
          = if w.AgeOfDGPSData = 0 then 0 else 1)
      ∧ (elemCount (wptMarshalXML layouts startName startAttrs w) "time"
          = if w.Time.IsZero then 0 else 1)
      ∧ (elemCount (wptMarshalXML defaultTimeLayouts "wpt" []
            { emptyWptType with Speed := 0 }) "speed" = 0)
      ∧ (elemCount (wptMarshalXML defaultTimeLayouts "wpt" []
            { emptyWptType with Speed := 1 / 10000 }) "speed" = 1) := by
  have hfmt' : goFormatUTC (layouts.head?.getD "") w.Time.unixNanos ≠ "" := by
    simpa using hfmt
  have hnil : ∀ n, elemCount [] n = 0 := fun n => rfl
  refine ⟨?_, ?_, ?_, ?_, ?_, ?_, ?_, ?_, ?_, ?_, ?_, ?_, ?_, ?_, ?_, ?_, ?_, ?_, ?_, ?_⟩
  all_goals
    simp [wptMarshalXML, elemCount_cons_start, elemCount_append, elemCount_maybeFloat,
      elemCount_maybeString, elemCount_maybeInt, elemCount_start, elemCount_close,
      elemCount_links, elemCount_dgpsid, elemCount_ext, elemCount_ite, hfmt, hfmt', hnil]

/-- C7 witness: the suppression theorem applied at the concrete waypoint
with the set timestamp 2001-11-28T21:05:28Z, whose `time` element is
emitted, together with the concrete `Speed = 0.0001` element count. -/
theorem wpt_marshal_zero_suppression_witness :
    goFormatUTC (defaultTimeLayouts.headD "") c4Wpt.Time.unixNanos ≠ ""
      ∧ elemCount (wptMarshalXML defaultTimeLayouts "wpt" [] c4Wpt) "time" = 1
      ∧ elemCount (wptMarshalXML defaultTimeLayouts "wpt" []
          { emptyWptType with Speed := 1 / 10000 }) "speed" = 1 := by
  have h := wpt_marshal_zero_suppression defaultTimeLayouts "wpt" [] c4Wpt (by decide)
  refine ⟨by decide, ?_, ?_⟩
  · have ht := h.2.2.2.2.2.2.2.2.2.2.2.2.2.2.2.2.2.1
    rw [ht]
    decide
  · exact h.2.2.2.2.2.2.2.2.2.2.2.2.2.2.2.2.2.2.2

/-- Modelled behaviour of the external charset-aware `encoding/xml` decoder
on the truncated input
`<gpx version="1.0" creator="c"><wpt lat="1" lon="2"></wpt>` (the closing
`</gpx>` tag is missing): the root attributes are assigned and the
completed `wpt` child element is unmarshalled and appended into the tree
before the missing end tag surfaces as a syntax error ("unexpected EOF");
the decoder leaves the partially-populated document in place and returns
the error, which is how `xml.Decoder.Decode` behaves on such input. -/
def truncatedDecode : List String → GPX → GPX × Option GoError :=
  fun _ g =>
    ({ g with
        Version := "1.0"
        Creator := "c"
        Wpt := g.Wpt ++ [{ emptyWptType with Lat := 1, Lon := 2 }] },
      some (.xmlTransport "unexpected EOF"))

/-- C2 counterexample: on the truncated input above, `Read` returns the
syntax error, but the document it returns alongside the error is not
empty — it carries the decoded waypoint, a partial best-effort tree.  The
claim that in every error case "no partial/best-effort document tree is
returned to the caller" fails: the source ends with
`return gpx, d.Decode(gpx)` and always hands back the (possibly partially
populated) document. -/
theorem read_returns_partial_tree_counterexample :
    (Read truncatedDecode [] initialState).1.2 = some (.xmlTransport "unexpected EOF")
      ∧ (Read truncatedDecode [] initialState).1.1.Wpt ≠ []
      ∧ (Read truncatedDecode [] initialState).1.1.Version = "1.0" := by
  exact ⟨rfl, by decide, rfl⟩

/-- C2 (amended): every decoder failure — malformed XML, unresolvable
charset, unparseable Copyright year — fails the whole `Read` call with the
decoder's error returned verbatim (no recovery, no retry), and the
document returned alongside is exactly whatever the decoder left in the
freshly-allocated tree: always present, possibly a partially-decoded
prefix, to be disregarded by the caller whenever the error is set. -/
theorem read_propagates_decoder_error
    (decode : List String → GPX → GPX × Option GoError)
    (options : List ReadOption) (st : GlobalState) (e : GoError)
    (h : (decode (applyReadOptions st options).timeLayouts emptyGPX).2 = some e) :
    (Read decode options st).1.2 = some e
      ∧ (Read decode options st).1.1
        = (decode (applyReadOptions st options).timeLayouts emptyGPX).1 :=
  ⟨h, rfl⟩

/-- C2 witness: the error-propagation theorem applied to the concrete
truncated-input decoder behaviour. -/
theorem read_propagates_decoder_error_witness :
    (Read truncatedDecode [] initialState).1.2
      = some (.xmlTransport "unexpected EOF") :=
  (read_propagates_decoder_error truncatedDecode [] initialState
    (.xmlTransport "unexpected EOF") rfl).1
